import Mathlib

/-!
Verification development for the Hue outdoor-temperature widget.

The embedding follows the two source components:
* `HueSetup` (discovery + pairing, `src/unnamed/part_000`): `discoverBridge`,
  `startPairing` / `pollForUser`, and the `localStorage` credential write.
* `TemperatureWidget` (`src/src/components/TemperatureWidget.tsx`): config
  load, the 30-second polling loop, sensor selection and temperature decoding.

Durable storage (`localStorage`) is modelled as an association list from keys
to JSON values; the platform guarantee that `JSON.parse` inverts
`JSON.stringify` on plain objects is taken at the JSON-value level.
-/

namespace HueWidget

/-- JSON values, restricted to the shapes this program stores and reads:
string fields inside an object. -/
inductive Json where
  | str (s : String)
  | obj (fields : List (String × Json))
  deriving Repr

/-- `localStorage`: an association list from keys to stored JSON values.
`setItem` prepends and `getItem` takes the first match, which is
observationally the overwrite semantics of the real store. -/
abbrev Store := List (String × Json)

/-- `localStorage.setItem(k, v)`. -/
def setItem (k : String) (v : Json) (s : Store) : Store := (k, v) :: s

/-- `localStorage.getItem(k)` (returns the parsed JSON value, or none). -/
def getItem (k : String) (s : Store) : Option Json :=
  (s.find? (fun p => p.1 == k)).map (fun p => p.2)

/-- Field lookup on a JSON object (`j.field` access after `JSON.parse`). -/
def jsonLookup (k : String) : Json → Option Json
  | .obj fields => (fields.find? (fun p => p.1 == k)).map (fun p => p.2)
  | _ => none

/-- Read a JSON value as a string. -/
def asString : Json → Option String
  | .str s => some s
  | _ => none

/-- The persisted config shape (`interface HueConfig` in TemperatureWidget.tsx):
`{bridgeIp, username}`. This is the spec's `Credentials` value. -/
structure HueConfig where
  bridgeIp : String
  username : String
  deriving DecidableEq, Repr

/-- `JSON.stringify({ bridgeIp, username })` from part_000 lines 81-85, as a
JSON value. -/
def configJson (bridgeIp username : String) : Json :=
  .obj [("bridgeIp", .str bridgeIp), ("username", .str username)]

/-- The credential write on pairing success (part_000 line 85):
`localStorage.setItem('hueConfig', JSON.stringify(config))`. -/
def saveConfig (c : HueConfig) (s : Store) : Store :=
  setItem "hueConfig" (configJson c.bridgeIp c.username) s

/-- Decoding the stored config the way TemperatureWidget uses it: the parsed
object's `bridgeIp` and `username` fields (lines 29, 47). -/
def decodeHueConfig (j : Json) : Option HueConfig :=
  match jsonLookup "bridgeIp" j >>= asString, jsonLookup "username" j >>= asString with
  | some ip, some u => some ⟨ip, u⟩
  | _, _ => none

/-- The config load in TemperatureWidget.tsx lines 27-30:
`localStorage.getItem('hueConfig')` followed by `JSON.parse`. -/
def loadConfig (s : Store) : Option HueConfig :=
  (getItem "hueConfig" s).bind decodeHueConfig

/-! ## Pairing (part_000, `startPairing` / `pollForUser`, lines 46-118) -/

/-- One bridge answer to the registration `POST /api` (part_000 lines 64-74).
`success u` is a body whose first element has `success.username == u`;
`error t` is a body whose first element has `error.type == t`;
`transportFailure` covers a thrown fetch/parse error or a body with neither
field (line 105 throws, landing in the same catch). -/
inductive BridgeResponse where
  | success (username : String)
  | error (t : Int)
  | transportFailure
  deriving DecidableEq, Repr

/-- Terminal/pending status of one pairing session, per the spec's state
names. In the source: `Success` is `setStep('success')`, `TimedOut` is
`setStep('input')` with the "Pairing Timeout" toast, `HardError` is
`setStep('input')` with the "Connection Failed" toast, and
`AwaitingButtonPress` is the `'pairing'` step with a retry still pending. -/
inductive PairingOutcome where
  | AwaitingButtonPress
  | Success (username : String)
  | TimedOut
  | HardError
  deriving DecidableEq, Repr

/-- `maxAttempts` (part_000 line 60). -/
def maxAttempts : Nat := 30

/-- The `pollForUser` retry loop (part_000 lines 62-115), driven by the list
of successive bridge responses. `attempts` is the closure counter (line 59),
`m` is `maxAttempts`, `store` is `localStorage`. Returns the session outcome,
the final value of `attempts`, and the final store. An exhausted response
list means no reply ever arrived, so the session is still awaiting.
* `success u`: `setUsername`, write `hueConfig`, `setStep('success')`.
* `error 101`: `attempts++`; below `maxAttempts` retry after 1 s, else
  timeout.
* any other error or a transport failure: the catch block (hard error). -/
def runPairing (ip : String) (attempts m : Nat) (store : Store) :
    List BridgeResponse → PairingOutcome × Nat × Store
  | [] => (.AwaitingButtonPress, attempts, store)
  | r :: rest =>
    match r with
    | .success u => (.Success u, attempts, saveConfig ⟨ip, u⟩ store)
    | .error t =>
      if t = 101 then
        if attempts + 1 < m then runPairing ip (attempts + 1) m store rest
        else (.TimedOut, attempts + 1, store)
      else (.HardError, attempts, store)
    | .transportFailure => (.HardError, attempts, store)

/-- Was the session outcome `Success`? -/
def isSuccessOutcome : PairingOutcome → Bool
  | .Success _ => true
  | _ => false

/-! ## Sensor polling (TemperatureWidget.tsx, `fetchTemperature`, lines 41-84) -/

/-- A sensor object from `GET /api/{username}/sensors`, in the shape the
widget inspects: `{type, name, state: {temperature}}`. `stateTemperature`
is `none` when `state.temperature` is null. -/
structure SensorReading where
  type : String
  name : String
  stateTemperature : Option Int
  deriving DecidableEq, Repr

/-- Does `needle` occur as a contiguous run inside `hay`? (JavaScript
`hay.includes(needle)`, on the underlying character lists.) -/
def subOccurs (needle : List Char) : List Char → Bool
  | [] => needle.isEmpty
  | c :: tl => List.isPrefixOf needle (c :: tl) || subOccurs needle tl

/-- JavaScript `hay.includes(needle)`. -/
def strContains (hay needle : String) : Bool :=
  subOccurs needle.data hay.data

/-- JavaScript `s.toLowerCase()` (ASCII case mapping on each character). -/
def toLowerStr (s : String) : String := ⟨s.data.map Char.toLower⟩

/-- The selection predicate (lines 56-59):
`sensor.type === 'ZLLTemperature' && sensor.name.toLowerCase().includes('outdoor')`. -/
def isOutdoorTempSensor (s : SensorReading) : Bool :=
  s.type == "ZLLTemperature" && strContains (toLowerStr s.name) "outdoor"

/-- What the network returned for one poll: a thrown transport error, a
non-2xx response (line 49 `!response.ok`), or a parsed sensors mapping in
iteration order. -/
inductive PollResponse where
  | transportError
  | httpError
  | ok (sensors : List SensorReading)
  deriving DecidableEq, Repr

/-- Poll outcome before it is applied to component state. `success` carries
the decoded Celsius value (line 62, raw / 100; temperatures are exact
rationals — the source applies no rounding here) and the sensor name.
`noSensorFound` is the throw at line 71, `fetchFailed` the throw at line 50. -/
inductive PollOutcome where
  | success (temperatureCelsius : ℚ) (sensorName : String)
  | noSensorFound
  | fetchFailed
  | transportError
  deriving DecidableEq, Repr

/-- The body of `fetchTemperature` (lines 45-72): find the first matching
sensor with `Object.values(...).find(...)`; if it exists and its
`state.temperature` is not null, decode raw/100, else throw. -/
def pollOnce : PollResponse → PollOutcome
  | .transportError => .transportError
  | .httpError => .fetchFailed
  | .ok sensors =>
    match sensors.find? isOutdoorTempSensor with
    | some sen =>
      match sen.stateTemperature with
      | some t => .success ((t : ℚ) / 100) sen.name
      | none => .noSensorFound
    | none => .noSensorFound

/-! ## Widget component state and event step (TemperatureWidget.tsx) -/

/-- The decoded reading held in component state (`TemperatureData`,
lines 7-11). `lastUpdated` (wall-clock time) is presentation-only and not
modelled. -/
structure TemperatureData where
  temperature : ℚ
  sensorName : String
  deriving DecidableEq, Repr

/-- The `TemperatureWidget` component state (lines 19-22), plus `inFlight`:
the number of `fetchTemperature` network requests started and not yet
resolved. The source has no such variable precisely because it never
consults one; it is model bookkeeping for the concurrency claims. -/
structure WidgetState where
  temperatureData : Option TemperatureData
  isConnected : Bool
  isLoading : Bool
  config : Option HueConfig
  inFlight : Nat
  deriving DecidableEq, Repr

/-- Events the widget reacts to: a 30-second interval tick (line 36), a
press of the refresh button (line 164), and the resolution of the oldest
in-flight request with a given network result. -/
inductive WidgetEvent where
  | tick
  | pressRefresh
  | resolve (resp : PollResponse)
  deriving Repr

/-- Entry of `fetchTemperature` (lines 41-47): bail out when `config` is
null, otherwise set `isLoading` and issue the request. There is no check of
`isLoading` or of any in-flight request on this path. -/
def fetchTemperatureStart (s : WidgetState) : WidgetState :=
  match s.config with
  | none => s
  | some _ => { s with isLoading := true, inFlight := s.inFlight + 1 }

/-- The tail of `fetchTemperature` once its awaited response `resp` is in
(lines 48-83): on success store the decoded reading and set connected; on
any failure the catch block sets `isConnected` to false and leaves
`temperatureData` untouched; `finally` clears `isLoading`. -/
def resolvePoll (s : WidgetState) (resp : PollResponse) : WidgetState :=
  match pollOnce resp with
  | .success temp name =>
    { s with temperatureData := some ⟨temp, name⟩, isConnected := true,
             isLoading := false, inFlight := s.inFlight - 1 }
  | _ =>
    { s with isConnected := false, isLoading := false,
             inFlight := s.inFlight - 1 }

/-- One widget step. A tick calls `fetchTemperature` directly
(`setInterval(fetchTemperature, 30000)`, line 36). The refresh button only
fires when enabled: it is rendered with `disabled={isLoading || !config}`
(line 166). `resolve` with nothing in flight is a no-op. -/
def widgetStep (s : WidgetState) : WidgetEvent → WidgetState
  | .tick => fetchTemperatureStart s
  | .pressRefresh =>
    if s.isLoading || s.config.isNone then s else fetchTemperatureStart s
  | .resolve resp => if s.inFlight = 0 then s else resolvePoll s resp

/-! ## Setup component: discovery and the pairing timer environment
(part_000) -/

/-- The `step` state of `HueSetup` (line 12): `'input' | 'pairing' |
'success'`. -/
inductive UIStep where
  | input
  | pairing
  | success
  deriving DecidableEq, Repr

/-- A scheduled `setTimeout(pollForUser, 1000)` continuation (line 95). The
closure captures the session it was created in (which `startPairing` call),
that session's `attempts` counter value, and its `bridgeIp`. The session
identifier exists only in the model — the source closure carries no such
tag, and the code never compares one. -/
structure PendingTimer where
  session : Nat
  attempts : Nat
  bridgeIp : String
  deriving DecidableEq, Repr

/-- The `HueSetup` component plus its timer environment. `activeSession`
numbers `startPairing` calls (the most recent one is the live session);
`regRequests` counts registration `POST /api` requests actually sent. -/
structure SetupMachine where
  activeSession : Nat
  step : UIStep
  store : Store
  pending : List PendingTimer
  regRequests : Nat

/-- One execution of the `pollForUser` body (lines 62-115) by the closure of
session `sess` with counter value `attempts` and captured `ip`, the bridge
answering `resp`. The body runs unconditionally — nothing in the source
compares `sess` with the machine's live session. -/
def runPoll (m : SetupMachine) (sess attempts : Nat) (ip : String)
    (resp : BridgeResponse) : SetupMachine :=
  let m := { m with regRequests := m.regRequests + 1 }
  match resp with
  | .success u =>
    { m with store := saveConfig ⟨ip, u⟩ m.store, step := .success }
  | .error t =>
    if t = 101 then
      if attempts + 1 < maxAttempts then
        { m with pending := m.pending ++ [⟨sess, attempts + 1, ip⟩] }
      else { m with step := .input }
    else { m with step := .input }
  | .transportFailure => { m with step := .input }

/-- Events on the setup screen: `startPairing` (lines 46-118) begins a fresh
session — new closure, `attempts = 0` — and immediately runs `pollForUser`,
whose request the bridge answers with `resp`; `fireTimer idx resp` is the
`setTimeout` callback at index `idx` of the pending list firing. The source
never calls `clearTimeout` and the callback performs no validity check, so
a fired timer always runs the full `pollForUser` body. -/
inductive SetupEvent where
  | startPairing (ip : String) (resp : BridgeResponse)
  | fireTimer (idx : Nat) (resp : BridgeResponse)

/-- One step of the setup machine. -/
def setupStep (m : SetupMachine) : SetupEvent → SetupMachine
  | .startPairing ip resp =>
    let sess := m.activeSession + 1
    runPoll { m with activeSession := sess, step := .pairing } sess 0 ip resp
  | .fireTimer idx resp =>
    match m.pending.get? idx with
    | none => m
    | some tmr =>
      runPoll { m with pending := m.pending.eraseIdx idx }
        tmr.session tmr.attempts tmr.bridgeIp resp

/-! ## Discovery (part_000, `discoverBridge`, lines 16-44) -/

/-- The cloud discovery answer: a JSON list of records, of which the code
uses only `internalipaddress`, or a thrown network error. -/
inductive DiscoveryResponse where
  | ok (addresses : List String)
  | networkError
  deriving DecidableEq, Repr

/-- The candidate address `discoverBridge` produces: `bridges[0].internalipaddress`
when `bridges.length > 0` (line 22), otherwise none (the "No Bridge Found"
and "Discovery Failed" toasts both leave the field for manual entry). -/
def discoverResult : DiscoveryResponse → Option String
  | .ok (a :: _) => some a
  | .ok [] => none
  | .networkError => none

/-- The relevant `HueSetup` state for discovery: the `bridgeIp` input field
and the store. -/
structure DiscoverState where
  bridgeIpField : String
  isConnecting : Bool
  store : Store
  deriving Repr

/-- The whole `discoverBridge` handler applied to the single response of its
one fetch: `setBridgeIp` on a non-empty list, toasts otherwise, and
`setIsConnecting(false)` in `finally`. It touches no durable storage. -/
def discoverBridge (s : DiscoverState) (resp : DiscoveryResponse) : DiscoverState :=
  match discoverResult resp with
  | some a => { s with bridgeIpField := a, isConnecting := false }
  | none => { s with isConnecting := false }

/-- `discoverBridge` as a consumer of the stream of discovery responses: one
invocation performs exactly one fetch, consuming exactly the head. -/
def discoverRun (s : DiscoverState) :
    List DiscoveryResponse → DiscoverState × List DiscoveryResponse
  | [] => (s, [])
  | r :: rest => (discoverBridge s r, rest)

/-! ## Concrete scenario states used by the claims -/

/-- Did this poll take the catch path (transport error, non-2xx, or no
usable sensor)? -/
def pollFailed (r : PollResponse) : Bool :=
  match pollOnce r with
  | .success _ _ => false
  | _ => true

/-- A widget with credentials loaded and nothing in flight. -/
def idleWidget : WidgetState :=
  ⟨none, false, false, some ⟨"192.168.1.2", "user"⟩, 0⟩

/-- `idleWidget` right after a scheduled tick: one poll in flight and not
yet resolved. -/
def busyWidget : WidgetState := widgetStep idleWidget .tick

/-- Fresh setup screen. -/
def setup0 : SetupMachine := ⟨0, .input, [], [], 0⟩

/-- Session 1 started against 192.168.1.2; bridge answers error 101, so a
1-second retry for session 1 is pending. -/
def setup1 : SetupMachine := setupStep setup0 (.startPairing "192.168.1.2" (.error 101))

/-- Session 2 started against 192.168.1.3 while session 1's timer is still
pending; session 1 is now superseded. -/
def setup2 : SetupMachine := setupStep setup1 (.startPairing "192.168.1.3" (.error 101))

/-- The stale timer of superseded session 1 fires and the bridge answers
with a success body. -/
def setup3 : SetupMachine := setupStep setup2 (.fireTimer 0 (.success "staleTok"))

/-! ## Helper lemmas -/

/-- `List.find?` returns the first element satisfying the predicate: it
satisfies `p`, and everything before it in the list does not. -/
theorem find_first_decomp {α : Type} (p : α → Bool) :
    ∀ (l : List α) (a : α), l.find? p = some a →
      p a = true ∧ ∃ pre post, l = pre ++ a :: post ∧ ∀ x ∈ pre, p x = false := by
  intro l
  induction l with
  | nil => intro a h; simp [List.find?] at h
  | cons hd tl ih =>
    intro a h
    by_cases hp : p hd
    · rw [List.find?_cons_of_pos _ hp] at h
      cases h
      exact ⟨hp, [], tl, rfl, by simp⟩
    · rw [List.find?_cons_of_neg _ hp] at h
      obtain ⟨hpa, pre, post, hl, hpre⟩ := ih a h
      refine ⟨hpa, hd :: pre, post, by rw [hl]; rfl, ?_⟩
      intro x hx
      rcases List.mem_cons.mp hx with hx | hx
      · subst hx; exact Bool.of_not_eq_true hp
      · exact hpre x hx

/-- The final `attempts` counter never exceeds `m` when the session starts
below it. -/
theorem runPairing_attempts_le (ip : String) (m : Nat) :
    ∀ (rs : List BridgeResponse) (a : Nat) (store : Store), a < m →
      (runPairing ip a m store rs).2.1 ≤ m := by
  intro rs
  induction rs with
  | nil => intro a store h; simpa [runPairing] using Nat.le_of_lt h
  | cons r rest ih =>
    intro a store h
    cases r with
    | success u => simp [runPairing]; omega
    | error t =>
      by_cases ht : t = 101
      · subst ht
        by_cases ha : a + 1 < m
        · simpa [runPairing, ha] using ih (a + 1) store ha
        · simp [runPairing, ha]; omega
      · simp [runPairing, ht]; omega
    | transportFailure => simp [runPairing]; omega

/-- The session times out exactly when the next `m - a` responses all exist
and all carry error type 101. -/
theorem runPairing_timedOut_iff (ip : String) (m : Nat) :
    ∀ (rs : List BridgeResponse) (a : Nat) (store : Store), a < m →
      ((runPairing ip a m store rs).1 = .TimedOut ↔
        (rs.take (m - a)).length = m - a ∧
          ∀ r ∈ rs.take (m - a), r = .error 101) := by
  intro rs
  induction rs with
  | nil =>
    intro a store h
    simp [runPairing]
    omega
  | cons r rest ih =>
    intro a store h
    obtain ⟨k, hk⟩ : ∃ k, m - a = k + 1 := ⟨m - a - 1, by omega⟩
    cases r with
    | success u =>
      rw [show (runPairing ip a m store (.success u :: rest)).1 = .Success u from rfl]
      constructor
      · intro hcon; cases hcon
      · rintro ⟨hlen, hall⟩
        have hmem : BridgeResponse.success u ∈
            (BridgeResponse.success u :: rest).take (m - a) := by
          rw [hk, List.take_succ_cons]
          exact List.mem_cons_self _ _
        cases hall _ hmem
    | error t =>
      by_cases ht : t = 101
      · subst ht
        by_cases ha : a + 1 < m
        · have hk2 : m - (a + 1) = k := by omega
          rw [show runPairing ip a m store (.error 101 :: rest) =
              runPairing ip (a + 1) m store rest from by simp [runPairing, ha]]
          rw [ih (a + 1) store ha, hk2, hk, List.take_succ_cons]
          simp
        · have hk0 : k = 0 := by omega
          subst hk0
          rw [show runPairing ip a m store (.error 101 :: rest) =
              (.TimedOut, a + 1, store) from by simp [runPairing, ha]]
          rw [hk, List.take_succ_cons]
          simp
      · rw [show (runPairing ip a m store (.error t :: rest)).1 = .HardError from by
            simp [runPairing, ht]]
        constructor
        · intro hcon; cases hcon
        · rintro ⟨hlen, hall⟩
          have hmem : BridgeResponse.error t ∈
              (BridgeResponse.error t :: rest).take (m - a) := by
            rw [hk, List.take_succ_cons]
            exact List.mem_cons_self _ _
          have h2 := hall _ hmem
          injection h2 with h3
          exact (ht h3).elim
    | transportFailure =>
      rw [show (runPairing ip a m store (.transportFailure :: rest)).1 = .HardError from rfl]
      constructor
      · intro hcon; cases hcon
      · rintro ⟨hlen, hall⟩
        have hmem : BridgeResponse.transportFailure ∈
            (BridgeResponse.transportFailure :: rest).take (m - a) := by
          rw [hk, List.take_succ_cons]
          exact List.mem_cons_self _ _
        cases hall _ hmem

/-! ## Claim theorems -/

/-- C1: in every pairing session started by `startPairing` the attempt
counter never exceeds `maxAttempts = 30`; the session ends `TimedOut` iff
all 30 attempts answered error type 101; and the sequence of 29 error-101
answers followed by `{success: {username: "abc123"}}` ends in
`Success "abc123"` (after 29 counted retryable attempts) with the
credentials persisted under `hueConfig`. -/
theorem C1_attempts_bounded_timeout_iff (ip : String) (store : Store)
    (rs : List BridgeResponse) :
    (runPairing ip 0 maxAttempts store rs).2.1 ≤ maxAttempts ∧
    ((runPairing ip 0 maxAttempts store rs).1 = .TimedOut ↔
      (rs.take 30).length = 30 ∧ ∀ r ∈ rs.take 30, r = .error 101) ∧
    runPairing ip 0 maxAttempts store
        (List.replicate 29 (.error 101) ++ [.success "abc123"]) =
      (.Success "abc123", 29, saveConfig ⟨ip, "abc123"⟩ store) := by
  refine ⟨runPairing_attempts_le ip maxAttempts rs 0 store (by decide), ?_, rfl⟩
  simpa using runPairing_timedOut_iff ip maxAttempts rs 0 store (by decide)

/-- C4: during pairing, a response whose error type is not 101, and a
transport failure or malformed response, moves the session to `HardError`
on that same attempt, for every value of the attempt counter, leaving the
counter and the store untouched and consuming no later response (the
result does not depend on `rest`, so no further attempt is scheduled). -/
theorem C4_non_retryable_hard_error (ip : String) (a m : Nat) (store : Store)
    (t : Int) (rest : List BridgeResponse) (ht : t ≠ 101) :
    runPairing ip a m store (.error t :: rest) = (.HardError, a, store) ∧
    runPairing ip a m store (.transportFailure :: rest) = (.HardError, a, store) := by
  constructor
  · simp [runPairing, ht]
  · rfl

/-- Witness for C4: error type 1 on the first attempt is fatal even though a
retryable response follows it in the stream. -/
theorem C4_non_retryable_hard_error_witness :
    runPairing "192.168.1.2" 0 30 [] [.error 1, .error 101] = (.HardError, 0, []) ∧
    runPairing "192.168.1.2" 0 30 [] [.transportFailure] = (.HardError, 0, []) :=
  ⟨(C4_non_retryable_hard_error "192.168.1.2" 0 30 [] 1 [.error 101] (by decide)).1,
   (C4_non_retryable_hard_error "192.168.1.2" 0 30 [] 1 [] (by decide)).2⟩

/-- C10: a pairing session whose outcome is not `Success` — timeout, hard
error, or still awaiting — leaves the store exactly as it was: the
`hueConfig` write happens only on the success branch. -/
theorem C10_failed_pairing_writes_nothing (ip : String) (m : Nat) :
    ∀ (rs : List BridgeResponse) (a : Nat) (store : Store),
      isSuccessOutcome (runPairing ip a m store rs).1 = false →
      (runPairing ip a m store rs).2.2 = store := by
  intro rs
  induction rs with
  | nil => intro a store _; rfl
  | cons r rest ih =>
    intro a store hfail
    cases r with
    | success u => simp [runPairing, isSuccessOutcome] at hfail
    | error t =>
      by_cases ht : t = 101
      · subst ht
        by_cases ha : a + 1 < m
        · rw [show runPairing ip a m store (.error 101 :: rest) =
              runPairing ip (a + 1) m store rest from by simp [runPairing, ha]] at hfail ⊢
          exact ih (a + 1) store hfail
        · simp [runPairing, ha]
      · simp [runPairing, ht]
    | transportFailure => rfl

/-- Witness for C10: a full 30-attempt timeout run against an empty store
writes nothing. -/
theorem C10_failed_pairing_writes_nothing_witness :
    isSuccessOutcome
        (runPairing "192.168.1.2" 0 30 [] (List.replicate 30 (.error 101))).1 = false ∧
    (runPairing "192.168.1.2" 0 30 [] (List.replicate 30 (.error 101))).2.2 = [] :=
  ⟨by decide,
   C10_failed_pairing_writes_nothing "192.168.1.2" 30
     (List.replicate 30 (.error 101)) 0 [] (by decide)⟩

/-- C5: the selected sensor is the first one in iteration order whose type
is "ZLLTemperature" and whose lower-cased name contains "outdoor"; when no
sensor matches, or the matched sensor's `state.temperature` is null, the
poll ends in `noSensorFound` and emits no reading. -/
theorem C5_first_matching_sensor_selected (sensors : List SensorReading) :
    (∀ sen, sensors.find? isOutdoorTempSensor = some sen →
      isOutdoorTempSensor sen = true ∧
      ∃ pre post, sensors = pre ++ sen :: post ∧
        ∀ x ∈ pre, isOutdoorTempSensor x = false) ∧
    (sensors.find? isOutdoorTempSensor = none →
      pollOnce (.ok sensors) = .noSensorFound) ∧
    (∀ sen, sensors.find? isOutdoorTempSensor = some sen →
      sen.stateTemperature = none → pollOnce (.ok sensors) = .noSensorFound) := by
  refine ⟨fun sen h => find_first_decomp isOutdoorTempSensor sensors sen h, ?_, ?_⟩
  · intro h
    simp [pollOnce, h]
  · intro sen h ht
    simp [pollOnce, h, ht]

/-- Witness for C5: a list whose only name match has a null temperature, and
a list with no "outdoor" name at all, both end in `noSensorFound`. -/
theorem C5_first_matching_sensor_selected_witness :
    pollOnce (.ok [⟨"ZLLTemperature", "Garage", some 2000⟩,
                   ⟨"ZLLTemperature", "Outdoor sensor", none⟩]) = .noSensorFound ∧
    pollOnce (.ok [⟨"ZLLTemperature", "Garage", some 2000⟩]) = .noSensorFound :=
  ⟨(C5_first_matching_sensor_selected _).2.2
      ⟨"ZLLTemperature", "Outdoor sensor", none⟩ (by decide) rfl,
   (C5_first_matching_sensor_selected _).2.1 (by decide)⟩

/-- C6: whenever the poll selects a sensor whose raw temperature is the
integer `t`, the emitted reading is exactly `t / 100` degrees Celsius —
exact division with no rounding in the decode step. -/
theorem C6_decode_divides_by_100 (sensors : List SensorReading)
    (sen : SensorReading) (t : Int)
    (h1 : sensors.find? isOutdoorTempSensor = some sen)
    (h2 : sen.stateTemperature = some t) :
    pollOnce (.ok sensors) = .success ((t : ℚ) / 100) sen.name := by
  simp [pollOnce, h1, h2]

/-- Witness for C6 (Scenario A): raw 2150 decodes to exactly 21.5 °C. -/
theorem C6_decode_divides_by_100_witness :
    pollOnce (.ok [⟨"ZLLTemperature", "Outdoor sensor", some 2150⟩]) =
      .success (((2150 : Int) : ℚ) / 100) "Outdoor sensor" ∧
    ((2150 : Int) : ℚ) / 100 = 43 / 2 :=
  ⟨C6_decode_divides_by_100 _ ⟨"ZLLTemperature", "Outdoor sensor", some 2150⟩ 2150
      (by decide) rfl,
   by norm_num⟩

/-- C7: a failed poll (transport error, non-2xx, or no usable sensor)
leaves `temperatureData` — the last good reading, or its absence —
unchanged, and sets the connection state to disconnected. -/
theorem C7_failed_poll_keeps_reading (s : WidgetState) (resp : PollResponse)
    (h : pollFailed resp = true) :
    (resolvePoll s resp).temperatureData = s.temperatureData ∧
    (resolvePoll s resp).isConnected = false := by
  unfold pollFailed at h
  unfold resolvePoll
  cases hp : pollOnce resp with
  | success temp name => rw [hp] at h; simp at h
  | noSensorFound => simp
  | fetchFailed => simp
  | transportError => simp

/-- Witness for C7 (Scenario B shape): an empty sensors mapping after a
prior good 21.5 °C reading keeps the reading and flips to disconnected. -/
theorem C7_failed_poll_keeps_reading_witness :
    (resolvePoll ⟨some ⟨43 / 2, "Outdoor sensor"⟩, true, true,
        some ⟨"192.168.1.2", "user"⟩, 1⟩ (.ok [])).temperatureData =
      some ⟨43 / 2, "Outdoor sensor"⟩ ∧
    (resolvePoll ⟨some ⟨43 / 2, "Outdoor sensor"⟩, true, true,
        some ⟨"192.168.1.2", "user"⟩, 1⟩ (.ok [])).isConnected = false :=
  C7_failed_poll_keeps_reading _ _ (by decide)

/-- C8: loading after saving returns exactly the saved credentials, through
the durable `hueConfig` key, for every credentials value and every prior
store content. -/
theorem C8_credentials_roundtrip (c : HueConfig) (store : Store) :
    loadConfig (saveConfig c store) = some c := by
  cases c
  rfl

/-- C9: one `discoverBridge` invocation consumes exactly one discovery
response; the candidate it produces is the `internalipaddress` of the first
element of the response list; a network error and an empty list both
produce no candidate (manual entry fallback); and the durable store is
untouched. -/
theorem C9_discover_first_entry_no_persist (s : DiscoverState)
    (r : DiscoveryResponse) (rest : List DiscoveryResponse)
    (addrs : List String) :
    discoverRun s (r :: rest) = (discoverBridge s r, rest) ∧
    (discoverBridge s r).store = s.store ∧
    discoverResult (.ok addrs) = addrs.head? ∧
    discoverResult .networkError = none ∧
    discoverResult (.ok []) = none := by
  refine ⟨rfl, ?_, ?_, rfl, rfl⟩
  · cases hr : discoverResult r <;> simp [discoverBridge, hr]
  · cases addrs <;> rfl

/-- C2 counterexample: `fetchTemperature` has no in-flight guard, so a
scheduled tick that fires while a poll is still unresolved is not skipped:
from a busy state (one request in flight, `isLoading` set), a second tick
starts a second overlapping request. -/
theorem C2_tick_while_busy_not_skipped :
    busyWidget.isLoading = true ∧ busyWidget.inFlight = 1 ∧
    widgetStep busyWidget .tick ≠ busyWidget ∧
    (widgetStep busyWidget .tick).inFlight = 2 := by
  refine ⟨rfl, rfl, ?_, rfl⟩
  decide

/-- C2 amended: only the manual refresh path is guarded — the refresh
button is rendered disabled while `isLoading`, so a manual refresh during
an in-flight poll starts no new request; but a scheduled tick always starts
a new `fetchTemperature` request whenever credentials are configured,
regardless of any request already in flight. -/
theorem C2_only_manual_refresh_guarded (s : WidgetState) :
    (s.isLoading = true → widgetStep s .pressRefresh = s) ∧
    (∀ c, s.config = some c → (widgetStep s .tick).inFlight = s.inFlight + 1) := by
  constructor
  · intro h
    simp [widgetStep, h]
  · intro c h
    simp [widgetStep, fetchTemperatureStart, h]

/-- Witness for the amended C2: on the busy state the refresh press is a
no-op, while a tick from the idle configured state starts one request. -/
theorem C2_only_manual_refresh_guarded_witness :
    widgetStep busyWidget .pressRefresh = busyWidget ∧
    (widgetStep idleWidget .tick).inFlight = 1 :=
  ⟨(C2_only_manual_refresh_guarded busyWidget).1 (by decide),
   (C2_only_manual_refresh_guarded idleWidget).2 ⟨"192.168.1.2", "user"⟩ (by decide)⟩

/-- C3: evaluation at the failing input. After `startPairing` against
192.168.1.2 receives error 101 (a retry timer is scheduled) and a second
`startPairing` against 192.168.1.3 supersedes that session, the stale timer
of session 1 fires and the bridge answers with a success body. The code
runs the full `pollForUser` body with no session-validity check: it sends
one more registration request, writes `hueConfig` with the superseded
session's captured address, and transitions the UI to the success step —
exactly what the claim says must never happen. -/
theorem C3_stale_timer_resurrects_superseded_session :
    setup2.activeSession = 2 ∧
    setup2.pending.get? 0 = some ⟨1, 1, "192.168.1.2"⟩ ∧
    setup3.regRequests = setup2.regRequests + 1 ∧
    setup3.step = .success ∧
    getItem "hueConfig" setup3.store =
      some (configJson "192.168.1.2" "staleTok") :=
  ⟨rfl, rfl, rfl, rfl, rfl⟩

end HueWidget
